import Mathlib

/-!
Verification of the range-bound hedging strategies in
Ruuudy1/Seminar_RiskManagement.

The repository holds two close variants of one QuantConnect strategy:
a basic one (PipsAndLotsExample.py) and an enhanced one
(TrailingStopWalkthroughExample.py). The decision core is shallowly
embedded here over the rationals: each Python method that the claims
touch becomes a Lean function over explicit state, with platform inputs
(indicator values, portfolio snapshot, order statuses) passed as
arguments. Names follow the source; functions present only in the
enhanced variant, or differing there, carry the suffix Enh.
-/

/-- Order status as reported by the platform (OrderStatus in the source). -/
inductive OrderStatus where
  | Submitted
  | Filled
  | Canceled
  | Invalid
deriving DecidableEq

/-- Order direction (OrderDirection in the source). -/
inductive OrderDirection where
  | Buy
  | Sell
deriving DecidableEq

/-- Exposure bookkeeping state: the two lot counters kept on the
algorithm object (self.openBuyLots, self.openSellLots). -/
structure ExposureState where
  openBuyLots : ℚ
  openSellLots : ℚ
deriving DecidableEq

/-- OnOrderEvent (identical in both variants): on a Filled event, add the
absolute filled quantity to the counter of the order direction; otherwise
leave the state unchanged. -/
def OnOrderEvent (s : ExposureState) (status : OrderStatus)
    (direction : OrderDirection) (quantity : ℚ) : ExposureState :=
  if status = OrderStatus.Filled then
    match direction with
    | OrderDirection.Buy => { s with openBuyLots := s.openBuyLots + |quantity| }
    | OrderDirection.Sell => { s with openSellLots := s.openSellLots + |quantity| }
  else s

/-- LiquidatePositions (identical in both variants): request a full
flatten (external side effect, not modelled) and reset both counters
to zero. -/
def LiquidatePositions (_s : ExposureState) : ExposureState :=
  { openBuyLots := 0, openSellLots := 0 }

/-- An event touching the exposure counters: an order event delivered by
the platform, or a liquidation call. -/
inductive ExposureEvent where
  | orderEvent (status : OrderStatus) (direction : OrderDirection) (quantity : ℚ)
  | liquidate
deriving DecidableEq

/-- One transition of the exposure bookkeeping. -/
def exposureStep (s : ExposureState) : ExposureEvent → ExposureState
  | ExposureEvent.orderEvent status direction quantity =>
      OnOrderEvent s status direction quantity
  | ExposureEvent.liquidate => LiquidatePositions s

/-- CalculateBuyLots, basic variant. r2r is self.r2r, positionSize is
self.positionSize, portfolioValue is Portfolio.TotalPortfolioValue. -/
def CalculateBuyLots (r2r openBuyLots openSellLots portfolioValue positionSize : ℚ) : ℚ :=
  if openBuyLots = 0 ∧ openSellLots = 0 then
    portfolioValue * positionSize
  else
    min (((r2r + 1) / r2r * openSellLots - openBuyLots) * (11/10))
      (portfolioValue * positionSize)

/-- CalculateSellLots, basic variant. -/
def CalculateSellLots (r2r openBuyLots openSellLots portfolioValue positionSize : ℚ) : ℚ :=
  if openBuyLots = 0 ∧ openSellLots = 0 then
    portfolioValue * positionSize
  else
    min (((r2r + 1) / r2r * openBuyLots - openSellLots) * (11/10))
      (portfolioValue * positionSize)

/-- The configuration fields of the enhanced variant read (or ignored) by
its sizing methods: self.r2r and self.positionSize. -/
structure EnhSizingConfig where
  r2r : ℚ
  positionSize : ℚ
deriving DecidableEq

/-- The value Initialize assigns to self.positionSize in the enhanced
variant (line 21: 0.1, ten percent of portfolio per trade). -/
def initializePositionSizeEnh : ℚ := 1/10

/-- CalculateBuyLots, enhanced variant: base size is hardcoded to two
percent of portfolio value; the positionSize field of the configuration
is not consulted. -/
def CalculateBuyLotsEnh (cfg : EnhSizingConfig)
    (openBuyLots openSellLots portfolioValue : ℚ) : ℚ :=
  let baseSize := portfolioValue * (2/100)
  if openBuyLots = 0 ∧ openSellLots = 0 then
    baseSize
  else
    min (((cfg.r2r + 1) / cfg.r2r * openSellLots - openBuyLots) * (11/10)) baseSize

/-- CalculateSellLots, enhanced variant. -/
def CalculateSellLotsEnh (cfg : EnhSizingConfig)
    (openBuyLots openSellLots portfolioValue : ℚ) : ℚ :=
  let baseSize := portfolioValue * (2/100)
  if openBuyLots = 0 ∧ openSellLots = 0 then
    baseSize
  else
    min (((cfg.r2r + 1) / cfg.r2r * openBuyLots - openSellLots) * (11/10)) baseSize

/-- Range levels kept on the algorithm object (self.buyLine,
self.sellLine), unset until first computed. -/
structure RangeLevels where
  buyLine : Option ℚ
  sellLine : Option ℚ
deriving DecidableEq

/-- UpdateRangeLevels, basic variant: a no-op unless high, low and atr are
all ready; recomputes only while a line is unset (set-once semantics),
placing the lines at the rolling extremes pushed out by half an ATR. -/
def UpdateRangeLevels (levels : RangeLevels)
    (highReady lowReady atrReady : Bool) (rollingHigh rollingLow atr : ℚ) :
    RangeLevels :=
  if highReady && lowReady && atrReady then
    if levels.buyLine = none ∨ levels.sellLine = none then
      { buyLine := some (rollingLow - atr * (1/2)),
        sellLine := some (rollingHigh + atr * (1/2)) }
    else levels
  else levels

/-- Range state of the enhanced variant: the two lines plus
self.last_range_update (time modelled as a rational). -/
structure RangeStateEnh where
  buyLine : Option ℚ
  sellLine : Option ℚ
  lastRangeUpdate : ℚ
deriving DecidableEq

/-- UpdateRangeLevels, enhanced variant: a no-op unless the indicators are
ready; recomputes when a line is unset or the update interval has elapsed,
with a full-ATR buffer, and stamps the update time. -/
def UpdateRangeLevelsEnh (st : RangeStateEnh)
    (highReady lowReady atrReady : Bool)
    (now rangeUpdateInterval rollingHigh rollingLow atr : ℚ) : RangeStateEnh :=
  if highReady && lowReady && atrReady then
    if st.buyLine = none ∨ st.sellLine = none ∨
        rangeUpdateInterval ≤ now - st.lastRangeUpdate then
      { buyLine := some (rollingLow - atr * 1),
        sellLine := some (rollingHigh + atr * 1),
        lastRangeUpdate := now }
    else st
  else st

/-- IsVolatilityHigh, basic variant: compares the current ATR value to the
same value scaled by 1.5. -/
def IsVolatilityHigh (atr : ℚ) : Bool :=
  decide (atr * (3/2) < atr)

/-- IsRangeBound, enhanced variant: fail-closed range-regime classifier
over the Bollinger snapshot, the current price, the SMA and the ATR. -/
def IsRangeBound (bbReady : Bool)
    (price bbUpper bbLower bbMiddle sma atr : ℚ) : Bool :=
  if !bbReady then false
  else
    let bandDifference := bbUpper - bbLower
    if |bandDifference| < 1/100000 then false
    else
      let bandWidth := bandDifference / bbMiddle
      let isRange := decide (1/2000 < bandWidth) && decide (bandWidth < 1/100)
      let pricePosition := (price - bbLower) / bandDifference
      let withinBands := decide (1/10 < pricePosition) && decide (pricePosition < 9/10)
      let isFlat := decide (|sma - bbMiddle| < atr * (1/2))
      isRange && withinBands && isFlat

/-- A protective order emitted alongside a filled entry. -/
inductive ProtectiveOrder where
  | stopMarket (quantity stopPrice : ℚ)
  | limitOrder (quantity limitPrice : ℚ)
deriving DecidableEq

/-- ExecuteBuyOrder (identical in both variants): computes stop and
take-profit prices from buyLine and the ATR, places a market order whose
resulting status the platform reports, and only on a Filled status adds
the lots to openBuyLots and emits the paired protective orders. -/
def ExecuteBuyOrder (s : ExposureState) (buyLine atr r2r lots : ℚ)
    (ticketStatus : OrderStatus) : ExposureState × List ProtectiveOrder :=
  let stopPrice := buyLine - atr
  let takeProfit := buyLine + atr * r2r
  if ticketStatus = OrderStatus.Filled then
    ({ s with openBuyLots := s.openBuyLots + lots },
      [ProtectiveOrder.stopMarket (-lots) stopPrice,
       ProtectiveOrder.limitOrder (-lots) takeProfit])
  else (s, [])

/-- ExecuteSellOrder (identical in both variants), mirrored around
sellLine. -/
def ExecuteSellOrder (s : ExposureState) (sellLine atr r2r lots : ℚ)
    (ticketStatus : OrderStatus) : ExposureState × List ProtectiveOrder :=
  let stopPrice := sellLine + atr
  let takeProfit := sellLine - atr * r2r
  if ticketStatus = OrderStatus.Filled then
    ({ s with openSellLots := s.openSellLots + lots },
      [ProtectiveOrder.stopMarket lots stopPrice,
       ProtectiveOrder.limitOrder lots takeProfit])
  else (s, [])

/-- State of the RangeBoundRiskManagement overlay (identical in both
variants): the configured drawdown threshold and the exit latch. -/
structure RiskOverlayState where
  maximumDrawdownPercent : ℚ
  exitTriggered : Bool
deriving DecidableEq

/-- ManageRisk (identical in both variants). Symbols are modelled as
naturals; targets as symbol-quantity pairs. If the unrealized-profit
ratio breaches the threshold, set the latch and return a zero target for
every known security; otherwise clear the latch when it is set and the
ratio has recovered to non-negative, and return the incoming targets. -/
def ManageRisk (st : RiskOverlayState) (unrealizedProfit totalValue : ℚ)
    (securities : List ℕ) (targets : List (ℕ × ℚ)) :
    RiskOverlayState × List (ℕ × ℚ) :=
  let pct := unrealizedProfit / totalValue
  if pct < -st.maximumDrawdownPercent then
    ({ st with exitTriggered := true }, securities.map (fun sym => (sym, 0)))
  else if st.exitTriggered && decide (0 ≤ pct) then
    ({ st with exitTriggered := false }, targets)
  else (st, targets)

/-!  Theorems settling the claims.  -/

/-- C1: evaluation of ManageRisk at a failing input for the claimed latch
behaviour. With the latch already set (exitTriggered = true), threshold
0.02 and unrealized-profit ratio -0.01 (inside the claimed flatten band
between -0.02 and 0), the code returns the incoming platform targets
unmodified and leaves the latch set; it does not return the flatten
target list that the claim requires. -/
theorem manageRisk_latch_eval :
    ManageRisk { maximumDrawdownPercent := 1/50, exitTriggered := true }
        (-1) 100 [0] [(0, 5)] =
      ({ maximumDrawdownPercent := 1/50, exitTriggered := true }, [(0, 5)]) ∧
    (ManageRisk { maximumDrawdownPercent := 1/50, exitTriggered := true }
        (-1) 100 [0] [(0, 5)]).2 ≠ [(0, 0)] := by
  constructor
  · norm_num [ManageRisk]
  · norm_num [ManageRisk]

/-- C2: exposure bookkeeping invariant. Every transition other than a
liquidation leaves both counters at least as large as before (a fill adds
the absolute filled quantity, any other order event changes nothing), and
a liquidation transition yields exactly (0, 0). -/
theorem exposure_monotone_and_reset (s : ExposureState) (e : ExposureEvent) :
    (e ≠ ExposureEvent.liquidate →
      s.openBuyLots ≤ (exposureStep s e).openBuyLots ∧
      s.openSellLots ≤ (exposureStep s e).openSellLots) ∧
    exposureStep s ExposureEvent.liquidate =
      { openBuyLots := 0, openSellLots := 0 } := by
  constructor
  · intro he
    cases e with
    | orderEvent status direction quantity =>
        simp only [exposureStep, OnOrderEvent]
        by_cases hst : status = OrderStatus.Filled
        · simp only [hst, if_pos rfl]
          cases direction with
          | Buy => exact ⟨le_add_of_nonneg_right (abs_nonneg _), le_refl _⟩
          | Sell => exact ⟨le_refl _, le_add_of_nonneg_right (abs_nonneg _)⟩
        · simp only [if_neg hst]
          exact ⟨le_refl _, le_refl _⟩
    | liquidate => exact absurd rfl he
  · rfl

/-- C2 witness at a concrete state and fill event. -/
theorem exposure_monotone_and_reset_witness :
    (3:ℚ) ≤ (exposureStep { openBuyLots := 3, openSellLots := 4 }
        (ExposureEvent.orderEvent OrderStatus.Filled OrderDirection.Buy 5)).openBuyLots ∧
    (4:ℚ) ≤ (exposureStep { openBuyLots := 3, openSellLots := 4 }
        (ExposureEvent.orderEvent OrderStatus.Filled OrderDirection.Buy 5)).openSellLots :=
  (exposure_monotone_and_reset { openBuyLots := 3, openSellLots := 4 }
    (ExposureEvent.orderEvent OrderStatus.Filled OrderDirection.Buy 5)).1 (by decide)

/-- C4: bootstrap sizing. With both exposure counters zero, the basic
variant returns exactly portfolioValue times positionSize for buys and
sells (10000 at one percent of a 1000000 portfolio), and the enhanced
variant returns exactly portfolioValue times its hardcoded two-percent
fraction regardless of the configured positionSize field. -/
theorem bootstrap_sizing (r2r portfolioValue positionSize : ℚ)
    (cfg : EnhSizingConfig) :
    CalculateBuyLots r2r 0 0 portfolioValue positionSize =
      portfolioValue * positionSize ∧
    CalculateSellLots r2r 0 0 portfolioValue positionSize =
      portfolioValue * positionSize ∧
    CalculateBuyLotsEnh cfg 0 0 portfolioValue = portfolioValue * (2/100) ∧
    CalculateSellLotsEnh cfg 0 0 portfolioValue = portfolioValue * (2/100) ∧
    CalculateBuyLots r2r 0 0 1000000 (1/100) = 10000 := by
  refine ⟨?_, ?_, ?_, ?_, ?_⟩ <;>
    norm_num [CalculateBuyLots, CalculateSellLots, CalculateBuyLotsEnh,
      CalculateSellLotsEnh]

/-- C6: the basic volatility check is a no-op. For every non-negative ATR
value the comparison of the ATR against itself scaled by 1.5 is false. -/
theorem isVolatilityHigh_basic_false (atr : ℚ) (h : 0 ≤ atr) :
    IsVolatilityHigh atr = false := by
  simp only [IsVolatilityHigh, decide_eq_false_iff_not, not_lt]
  linarith

/-- C6 witness at ATR value 1. -/
theorem isVolatilityHigh_basic_false_witness : IsVolatilityHigh 1 = false :=
  isVolatilityHigh_basic_false 1 (by decide)

/-- C3: rebalancing size formula with cap. Whenever the two exposure
counters are not both zero, the sell size is the capped rebalancing
formula over the buy exposure (and symmetrically for the buy size), in
both variants, the enhanced one with its hardcoded two-percent cap; and
at openBuyLots 10000, openSellLots 0, riskRewardRatio 2 and cap 10000 the
sell size is 10000 (the uncapped target being 16500). -/
theorem calculateLots_rebalance_formula
    (r2r ob os portfolioValue positionSize : ℚ)
    (h : ¬(ob = 0 ∧ os = 0)) :
    CalculateSellLots r2r ob os portfolioValue positionSize =
      min (((r2r + 1) / r2r * ob - os) * (11/10))
        (portfolioValue * positionSize) ∧
    CalculateBuyLots r2r ob os portfolioValue positionSize =
      min (((r2r + 1) / r2r * os - ob) * (11/10))
        (portfolioValue * positionSize) ∧
    CalculateSellLotsEnh { r2r := r2r, positionSize := positionSize }
        ob os portfolioValue =
      min (((r2r + 1) / r2r * ob - os) * (11/10))
        (portfolioValue * (2/100)) ∧
    CalculateBuyLotsEnh { r2r := r2r, positionSize := positionSize }
        ob os portfolioValue =
      min (((r2r + 1) / r2r * os - ob) * (11/10))
        (portfolioValue * (2/100)) ∧
    (((2:ℚ) + 1) / 2 * 10000 - 0) * (11/10) = 16500 ∧
    CalculateSellLots 2 10000 0 1000000 (1/100) = 10000 := by
  refine ⟨?_, ?_, ?_, ?_, by norm_num, ?_⟩
  · simp [CalculateSellLots, h]
  · simp [CalculateBuyLots, h]
  · simp [CalculateSellLotsEnh, h]
  · simp [CalculateBuyLotsEnh, h]
  · have h16 : (((2:ℚ) + 1) / 2 * 10000 - 0) * (11/10) = 16500 := by norm_num
    have hcap : (1000000 : ℚ) * (1/100) = 10000 := by norm_num
    simp only [CalculateSellLots]
    rw [if_neg (by norm_num), h16, hcap]
    norm_num

/-- C3 witness at exposure (10000, 0), portfolio 1000000, fraction one
percent. -/
theorem calculateLots_rebalance_formula_witness :
    CalculateSellLots 2 10000 0 1000000 (1/100) =
      min ((((2:ℚ) + 1) / 2 * 10000 - 0) * (11/10)) (1000000 * (1/100)) :=
  (calculateLots_rebalance_formula 2 10000 0 1000000 (1/100) (by norm_num)).1

/-- C5: range refresh computation and ordering. With ready indicators, a
recomputing refresh of the basic variant sets buyLine to the rolling low
minus half an ATR and sellLine to the rolling high plus half an ATR, and
of the enhanced variant the same with a full-ATR buffer and a stamped
update time; and for rollingLow at most rollingHigh and non-negative ATR
the resulting buy line is at most the sell line in both variants. -/
theorem updateRangeLevels_formula (levels : RangeLevels) (st : RangeStateEnh)
    (now rangeUpdateInterval rollingHigh rollingLow atr : ℚ)
    (hunset : levels.buyLine = none ∨ levels.sellLine = none)
    (hrefresh : st.buyLine = none ∨ st.sellLine = none ∨
      rangeUpdateInterval ≤ now - st.lastRangeUpdate)
    (hle : rollingLow ≤ rollingHigh) (hatr : 0 ≤ atr) :
    UpdateRangeLevels levels true true true rollingHigh rollingLow atr =
      { buyLine := some (rollingLow - atr * (1/2)),
        sellLine := some (rollingHigh + atr * (1/2)) } ∧
    rollingLow - atr * (1/2) ≤ rollingHigh + atr * (1/2) ∧
    UpdateRangeLevelsEnh st true true true now rangeUpdateInterval
        rollingHigh rollingLow atr =
      { buyLine := some (rollingLow - atr * 1),
        sellLine := some (rollingHigh + atr * 1),
        lastRangeUpdate := now } ∧
    rollingLow - atr * 1 ≤ rollingHigh + atr * 1 := by
  refine ⟨?_, by linarith, ?_, by linarith⟩
  · simp [UpdateRangeLevels, hunset]
  · simp [UpdateRangeLevelsEnh, hrefresh]

/-- C5 witness at the worked scenario: rollingLow 1.1000, rollingHigh
1.1050, atr 0.0010, starting from unset levels. -/
theorem updateRangeLevels_formula_witness :
    UpdateRangeLevels { buyLine := none, sellLine := none } true true true
        (11050/10000) (11000/10000) (10/10000) =
      { buyLine := some (11000/10000 - (10/10000) * (1/2)),
        sellLine := some (11050/10000 + (10/10000) * (1/2)) } ∧
    (11000/10000 : ℚ) - (10/10000) * (1/2) ≤ 11050/10000 + (10/10000) * (1/2) :=
  ⟨(updateRangeLevels_formula { buyLine := none, sellLine := none }
      { buyLine := none, sellLine := none, lastRangeUpdate := 0 }
      0 0 (11050/10000) (11000/10000) (10/10000)
      (Or.inl rfl) (Or.inl rfl) (by norm_num) (by norm_num)).1,
   (updateRangeLevels_formula { buyLine := none, sellLine := none }
      { buyLine := none, sellLine := none, lastRangeUpdate := 0 }
      0 0 (11050/10000) (11000/10000) (10/10000)
      (Or.inl rfl) (Or.inl rfl) (by norm_num) (by norm_num)).2.1⟩

/-- C7: fail-closed conditions of the range-bound filter. IsRangeBound
returns false when the Bollinger indicator is not ready, when the band
difference is within epsilon of zero, when the band width lies at or
outside the open interval from 0.0005 to 0.01, and when the price
position lies at or outside the open interval from 0.1 to 0.9. -/
theorem isRangeBound_fail_closed
    (bbReady : Bool) (price bbUpper bbLower bbMiddle sma atr : ℚ) :
    (bbReady = false →
      IsRangeBound bbReady price bbUpper bbLower bbMiddle sma atr = false) ∧
    (|bbUpper - bbLower| < 1/100000 →
      IsRangeBound bbReady price bbUpper bbLower bbMiddle sma atr = false) ∧
    ((bbUpper - bbLower) / bbMiddle ≤ 1/2000 ∨
        1/100 ≤ (bbUpper - bbLower) / bbMiddle →
      IsRangeBound bbReady price bbUpper bbLower bbMiddle sma atr = false) ∧
    ((price - bbLower) / (bbUpper - bbLower) ≤ 1/10 ∨
        9/10 ≤ (price - bbLower) / (bbUpper - bbLower) →
      IsRangeBound bbReady price bbUpper bbLower bbMiddle sma atr = false) := by
  refine ⟨?_, ?_, ?_, ?_⟩
  · intro h
    subst h
    rfl
  · intro h
    cases bbReady with
    | false => rfl
    | true =>
        simp only [IsRangeBound]
        simp
        intro h1 h2 h3 h4 h5
        linarith
  · intro h
    cases bbReady with
    | false => rfl
    | true =>
        rcases h with h | h
        · simp only [IsRangeBound]
          simp
          intro h1 h2 h3 h4 h5
          linarith
        · simp only [IsRangeBound]
          simp
          intro h1 h2 h3 h4 h5
          linarith
  · intro h
    cases bbReady with
    | false => rfl
    | true =>
        rcases h with h | h
        · simp only [IsRangeBound]
          simp
          intro h1 h2 h3 h4 h5
          linarith
        · simp only [IsRangeBound]
          simp
          intro h1 h2 h3 h4 h5
          linarith

/-- C7 witness at the exact lower band-width boundary: band difference 1,
middle band 2000, so the band width is exactly 0.0005 and the filter
returns false. -/
theorem isRangeBound_fail_closed_witness :
    IsRangeBound true 1 3 2 2000 0 0 = false :=
  (isRangeBound_fail_closed true 1 3 2 2000 0 0).2.2.1 (Or.inl (by norm_num))

/-- C8: entry atomicity. When the market order ticket does not report
Filled, both entry paths leave the exposure state unchanged and emit no
protective orders; on a Filled ticket, the buy path adds the lots to
openBuyLots and emits the stop at buyLine minus the ATR and the limit at
buyLine plus the ATR times the risk-reward ratio, and the sell path does
the mirrored update around sellLine. -/
theorem executeOrder_atomicity (s : ExposureState)
    (buyLine sellLine atr r2r lots : ℚ) (ticketStatus : OrderStatus) :
    (ticketStatus ≠ OrderStatus.Filled →
      ExecuteBuyOrder s buyLine atr r2r lots ticketStatus = (s, []) ∧
      ExecuteSellOrder s sellLine atr r2r lots ticketStatus = (s, [])) ∧
    ExecuteBuyOrder s buyLine atr r2r lots OrderStatus.Filled =
      ({ s with openBuyLots := s.openBuyLots + lots },
        [ProtectiveOrder.stopMarket (-lots) (buyLine - atr),
         ProtectiveOrder.limitOrder (-lots) (buyLine + atr * r2r)]) ∧
    ExecuteSellOrder s sellLine atr r2r lots OrderStatus.Filled =
      ({ s with openSellLots := s.openSellLots + lots },
        [ProtectiveOrder.stopMarket lots (sellLine + atr),
         ProtectiveOrder.limitOrder lots (sellLine - atr * r2r)]) :=
  ⟨fun h => ⟨by simp [ExecuteBuyOrder, h], by simp [ExecuteSellOrder, h]⟩,
   by simp [ExecuteBuyOrder], by simp [ExecuteSellOrder]⟩

/-- C8 witness at a Canceled ticket: the exposure state survives both
entry paths untouched and no protective orders appear. -/
theorem executeOrder_atomicity_witness :
    ExecuteBuyOrder { openBuyLots := 1, openSellLots := 2 } 3 4 5 6
        OrderStatus.Canceled = ({ openBuyLots := 1, openSellLots := 2 }, []) ∧
    ExecuteSellOrder { openBuyLots := 1, openSellLots := 2 } 7 4 5 6
        OrderStatus.Canceled = ({ openBuyLots := 1, openSellLots := 2 }, []) :=
  (executeOrder_atomicity { openBuyLots := 1, openSellLots := 2 }
    3 7 4 5 6 OrderStatus.Canceled).1 (by decide)

/-- C9: double counting of filled entries. Processing one filled buy of
positive size through the fill branch of ExecuteBuyOrder and then through
the OnOrderEvent handler increases openBuyLots by twice the lots, and
symmetrically a filled sell increases openSellLots by twice the lots. -/
theorem fill_double_count (s : ExposureState)
    (buyLine sellLine atr r2r lots : ℚ) (h : 0 < lots) :
    (OnOrderEvent (ExecuteBuyOrder s buyLine atr r2r lots OrderStatus.Filled).1
        OrderStatus.Filled OrderDirection.Buy lots).openBuyLots =
      s.openBuyLots + 2 * lots ∧
    (OnOrderEvent (ExecuteSellOrder s sellLine atr r2r lots OrderStatus.Filled).1
        OrderStatus.Filled OrderDirection.Sell lots).openSellLots =
      s.openSellLots + 2 * lots := by
  have ha : |lots| = lots := abs_of_pos h
  have key : ∀ x : ℚ, x + lots + lots = x + 2 * lots := fun x => by ring
  exact ⟨by simp [OnOrderEvent, ExecuteBuyOrder, ha, key],
    by simp [OnOrderEvent, ExecuteSellOrder, ha, key]⟩

/-- C9 witness: from exposure (0, 0), one filled buy of 5 lots processed
through both paths leaves openBuyLots at 10. -/
theorem fill_double_count_witness :
    (OnOrderEvent (ExecuteBuyOrder { openBuyLots := 0, openSellLots := 0 }
        1 1 2 5 OrderStatus.Filled).1
      OrderStatus.Filled OrderDirection.Buy 5).openBuyLots = 0 + 2 * 5 :=
  (fill_double_count { openBuyLots := 0, openSellLots := 0 }
    1 1 1 2 5 (by norm_num)).1

/-- C10: the enhanced sizing ignores the configured position fraction.
Two configurations agreeing on the risk-reward ratio but differing in the
positionSize field yield identical buy and sell sizes; Initialize sets
that field to 0.1, while both the bootstrap size and the cap are the
hardcoded two percent of portfolio value. -/
theorem enhSizing_ignores_positionSize (cfg cfgB : EnhSizingConfig)
    (ob os portfolioValue : ℚ) (hr : cfg.r2r = cfgB.r2r) :
    CalculateBuyLotsEnh cfg ob os portfolioValue =
      CalculateBuyLotsEnh cfgB ob os portfolioValue ∧
    CalculateSellLotsEnh cfg ob os portfolioValue =
      CalculateSellLotsEnh cfgB ob os portfolioValue ∧
    initializePositionSizeEnh = 1/10 ∧
    CalculateBuyLotsEnh cfg 0 0 portfolioValue = portfolioValue * (2/100) := by
  refine ⟨?_, ?_, rfl, ?_⟩ <;>
    simp [CalculateBuyLotsEnh, CalculateSellLotsEnh, hr]

/-- C10 witness: two configurations differing only in positionSize (0.1
against 0.01) give the same buy size at exposure (5, 7). -/
theorem enhSizing_ignores_positionSize_witness :
    CalculateBuyLotsEnh { r2r := 2, positionSize := 1/10 } 5 7 1000 =
      CalculateBuyLotsEnh { r2r := 2, positionSize := 1/100 } 5 7 1000 :=
  (enhSizing_ignores_positionSize { r2r := 2, positionSize := 1/10 }
    { r2r := 2, positionSize := 1/100 } 5 7 1000 rfl).1
